import Mathlib

/-!
Shallow embedding of the per-user conversation state machine and order/bonus
settlement logic of `telegram_bot.py`.

Modeling conventions:
* Google-Sheets worksheets are lists of typed rows (`Customer`, `Product`,
  `OrderRow`); numeric cells (Python floats) are modeled as `ℚ`.
* The process-wide Python dicts (`USER_STATE`, `CART`, `USER_CACHE`,
  `PRODUCT_CACHE`, `ORDER_CACHE`, `BONUS_REQUESTS`, `USER_SELECTED_GROUP`)
  are association lists `List (String × _)` with `lookupKey` / `setKey` /
  `delKey` modeling `d[k]` reads, `d[k] = v` writes and `del d[k]`
  (for keys that are present, which is the situation in the modeled paths).
* Handlers are pure functions `Env → ... → Env × String`, returning the new
  global state and the (main) reply text sent to the acting user.  Side
  messages sent to the administrator or the customer counterpart, message
  formatting of long listing replies, and `datetime.now()` (passed in as the
  `date` argument) are outside the modeled return value; all state effects
  are modeled exactly as in the source.
-/

namespace Bot

/-- A row of the Haridorlar (customers) worksheet, columns A..H; also the
shape of the dictionaries stored in `USER_CACHE` (built in `get_user_data`). -/
structure Customer where
  id : String
  name : String
  phone : String
  address : String
  role : String
  bonus : ℚ
  edit_request : String
  edit_confirmed : String
deriving DecidableEq

/-- A row of the Mahsulotlar (products) worksheet, columns A..E; also the
shape of the dictionaries produced by `get_products`. -/
structure Product where
  group_name : String
  name : String
  price : ℚ
  bonus_percent : ℚ
  quantity : ℚ
deriving DecidableEq

/-- A row of the Buyurtmalar (orders) worksheet, columns A..J. -/
structure OrderRow where
  user_id : String
  user_name : String
  phone : String
  address : String
  date : String
  group_name : String
  cart_text : String
  total_sum : ℚ
  bonus_sum : ℚ
  confirmed : String
deriving DecidableEq

/-- A line item appended to `CART[user_id]` in the quantity step:
`{"name": ..., "quantity": int(text), "price": ..., "bonus_percent": ...}`. -/
structure CartItem where
  name : String
  quantity : ℤ
  price : ℚ
  bonus_percent : ℚ
deriving DecidableEq

/-- A `USER_STATE[user_id]` entry: the Python code uses a free-form dict
keyed by a string `step` tag plus step-specific scratch fields; unset fields
default to `""` / `0` (they are never read before being set in the modeled
flows). -/
structure Session where
  step : String
  name : String := ""
  phone : String := ""
  address : String := ""
  role : String := ""
  bonus : ℚ := 0
  current_name : String := ""
  current_phone : String := ""
  current_address : String := ""
  current_role : String := ""
  product_name : String := ""
deriving DecidableEq

/-- An `ORDER_CACHE[user_id]` entry (`temp_order` staged in `handle_location`). -/
structure TempOrder where
  user_id : String
  user_name : String
  phone : String
  address : String
  group_name : String
  cart_text : String
  total_sum : ℚ
  bonus_sum : ℚ
  maps_link : String
  cart : List CartItem
deriving DecidableEq

/-- The process-wide mutable state: the four worksheets plus the global
dictionaries declared at the top of `telegram_bot.py`. -/
structure Env where
  admins : List String := []
  haridorlar : List Customer := []
  mahsulotlar : List Product := []
  buyurtmalar : List OrderRow := []
  guruhlar : List String := []
  user_state : List (String × Session) := []
  cart : List (String × List CartItem) := []
  bonus_requests : List (String × ℚ) := []
  user_selected_group : List (String × String) := []
  user_cache : List (String × Customer) := []
  product_cache : List (String × List Product) := []
  group_cache : Option (List String) := none
  order_cache : List (String × TempOrder) := []
deriving DecidableEq

/-- Python `d[k]` / `d.get(k)` on an association list: first binding wins. -/
def lookupKey {α : Type} : List (String × α) → String → Option α
  | [], _ => none
  | (k', v) :: rest, k => if k' = k then some v else lookupKey rest k

/-- Python `d[k] = v`: replace the first binding of `k`, or append one. -/
def setKey {α : Type} : List (String × α) → String → α → List (String × α)
  | [], k, v => [(k, v)]
  | (k', v') :: rest, k, v =>
    if k' = k then (k, v) :: rest else (k', v') :: setKey rest k v

/-- Python `del d[k]` (for a present key): drop the first binding of `k`. -/
def delKey {α : Type} : List (String × α) → String → List (String × α)
  | [], _ => []
  | (k', v') :: rest, k =>
    if k' = k then rest else (k', v') :: delKey rest k

/-- Python `s.strip()`: drop whitespace from both ends (structural, so that
concrete runs compute inside the kernel). -/
def strip (s : String) : String :=
  ⟨((s.data.dropWhile Char.isWhitespace).reverse.dropWhile Char.isWhitespace).reverse⟩

/-- The regular expression test `re.match(r"^\+998\d{9}$", text)`:
exactly `+998` followed by nine decimal digits. -/
def phone_matches (s : String) : Bool :=
  match s.data with
  | '+' :: '9' :: '9' :: '8' :: rest =>
    rest.length = 9 && rest.all Char.isDigit
  | _ => false

/-- Helper for `pythonDigits`: digits with single underscores allowed between
digits (Python integer-literal grouping), scanned after the first digit. -/
def undDigitsAux : List Char → Bool
  | [] => true
  | '_' :: c :: rest => c.isDigit && undDigitsAux rest
  | c :: rest => c.isDigit && undDigitsAux rest

/-- A nonempty digit string as accepted by Python `int()` after an optional
sign: digits, with single underscores permitted between digits. -/
def pythonDigits : List Char → Bool
  | [] => false
  | c :: rest => c.isDigit && undDigitsAux rest

/-- Numeric value of a digit string (underscores skipped). -/
def digitsVal (cs : List Char) : ℤ :=
  (cs.filter (fun c => c != '_')).foldl (fun a c => a * 10 + ((c.toNat : ℤ) - 48)) 0

/-- Python `int(text)` on the stripped message text: optional sign followed
by digits, `none` when a `ValueError` would be raised. -/
def pythonInt (s : String) : Option ℤ :=
  match s.data with
  | '+' :: rest => if pythonDigits rest then some (digitsVal rest) else none
  | '-' :: rest => if pythonDigits rest then some (-digitsVal rest) else none
  | cs => if pythonDigits cs then some (digitsVal cs) else none

/-- Helper for `format_currency`: insert a space after every third digit of a
reversed digit list (the effect of `f"{n:,d}".replace(",", " ")`). -/
def insertSpacesRev : List Char → Nat → List Char
  | [], _ => []
  | c :: cs, k =>
    if k = 3 then ' ' :: c :: insertSpacesRev cs 1
    else c :: insertSpacesRev cs (k + 1)

/-- The `format_currency` helper: `f"{int(float(amount)):,d} so'm".replace(",", " ")`;
`int()` truncates toward zero and thousands groups are separated by spaces. -/
def format_currency (amount : ℚ) : String :=
  let n : ℤ := if 0 ≤ amount then ⌊amount⌋ else ⌈amount⌉
  let ds := (toString n.natAbs).data
  let grouped := (insertSpacesRev ds.reverse 0).reverse
  (if n < 0 then "-" else "") ++ String.mk grouped ++ " so\x27m"

/-- The scan `for row in all_values[1:]: if row[0] == str(user_id)` used by
`get_user_data`, `update_user_data` and `update_bonus`: first row whose
ID column equals the user id. -/
def findCustomer : List Customer → String → Option Customer
  | [], _ => none
  | r :: rs, uid => if r.id = uid then some r else findCustomer rs uid

/-- The function `get_user_data(user_id)`: serve from `USER_CACHE` when
present, otherwise scan the Haridorlar sheet and cache the row found;
`none` when the customer does not exist. -/
def get_user_data (env : Env) (uid : String) : Option Customer × Env :=
  match lookupKey env.user_cache uid with
  | some c => (some c, env)
  | none =>
    match findCustomer env.haridorlar uid with
    | some r => (some r, { env with user_cache := setKey env.user_cache uid r })
    | none => (none, env)

/-- The function `save_user_data(user_id, data)`: append a Haridorlar row
`[user_id, name, phone, address, role, bonus, "", ""]` (the last two cells
are written as empty strings regardless of `data`) and store `data` itself
in `USER_CACHE`.  The required-field check always passes in the typed model
and sheet append errors are outside the model, so the result is `true`. -/
def save_user_data (env : Env) (uid : String) (d : Customer) : Bool × Env :=
  let row : Customer :=
    { id := uid, name := d.name, phone := d.phone, address := d.address,
      role := d.role, bonus := d.bonus, edit_request := "", edit_confirmed := "" }
  (true, { env with haridorlar := env.haridorlar ++ [row],
                    user_cache := setKey env.user_cache uid d })

/-- Helper for `update_user_data`: replace the first Haridorlar row whose ID
column is `uid` with the row built from `data` (`A{i}:H{i}` update);
`none` when no row matches. -/
def replaceCustomerRow : List Customer → String → Customer → Option (List Customer)
  | [], _, _ => none
  | r :: rs, uid, d =>
    if r.id = uid then some ({ d with id := uid } :: rs)
    else
      match replaceCustomerRow rs uid d with
      | none => none
      | some rs' => some (r :: rs')

/-- The function `update_user_data(user_id, data, edit_request)`: overwrite
the customer's sheet row with `data` and store `data` in `USER_CACHE`;
when the row is missing, fall back to `save_user_data` if `edit_request`
is set, otherwise report `False`. -/
def update_user_data (env : Env) (uid : String) (d : Customer)
    (edit_flag : Bool) : Bool × Env :=
  match replaceCustomerRow env.haridorlar uid d with
  | some rows' =>
    (true, { env with haridorlar := rows', user_cache := setKey env.user_cache uid d })
  | none =>
    if edit_flag then save_user_data env uid d else (false, env)

/-- Helper for `update_bonus`: add `amt` to the Bonus column of the first
row whose ID is `uid`, returning the updated rows and the new balance;
`none` when no row matches. -/
def creditFirst : List Customer → String → ℚ → Option (List Customer × ℚ)
  | [], _, _ => none
  | r :: rs, uid, amt =>
    if r.id = uid then some ({ r with bonus := r.bonus + amt } :: rs, r.bonus + amt)
    else
      match creditFirst rs uid amt with
      | none => none
      | some (rs', nb) => some (r :: rs', nb)

/-- The function `update_bonus(user_id, bonus_amount)`: read the current
balance from the sheet, add the delta, write the sum back
(`update_cell(i, 6, new_bonus)`), and refresh `USER_CACHE[user_id]["bonus"]`
when the user is cached; `False` and no change when the customer row no
longer exists. -/
def update_bonus (env : Env) (uid : String) (amt : ℚ) : Bool × Env :=
  match creditFirst env.haridorlar uid amt with
  | none => (false, env)
  | some (rows', nb) =>
    let cache' :=
      match lookupKey env.user_cache uid with
      | some c => setKey env.user_cache uid { c with bonus := nb }
      | none => env.user_cache
    (true, { env with haridorlar := rows', user_cache := cache' })

/-- The expression `cache_key = group_name or "all"` of `get_products` /
`save_product`, with `none` standing for Python `None`. -/
def cacheKeyOf : Option String → String
  | none => "all"
  | some g => if g = "" then "all" else g

/-- The function `get_products(group_name=None)`: serve from `PRODUCT_CACHE`
under `group_name or "all"` when present; otherwise scan the Mahsulotlar
sheet, keeping a row when `group_name is None` or its (stripped) group
column equals the (stripped) requested group, and cache the result. -/
def get_products (env : Env) (group? : Option String) : List Product × Env :=
  let key := cacheKeyOf group?
  match lookupKey env.product_cache key with
  | some ps => (ps, env)
  | none =>
    let ps := env.mahsulotlar.filter (fun p =>
      match group? with
      | none => true
      | some g => strip p.group_name == strip g)
    (ps, { env with product_cache := setKey env.product_cache key ps })

/-- The function `get_groups()`: serve `GROUP_CACHE` when set, otherwise
compute the stripped, deduplicated group names from the Guruhlar sheet and
cache them (`list(set(...))` returns the distinct names in an unspecified
order; the model keeps first-occurrence order). -/
def get_groups (env : Env) : List String × Env :=
  match env.group_cache with
  | some gs => (gs, env)
  | none =>
    let gs := ((env.guruhlar.filter (fun g => g != "")).map strip).dedup
    (gs, { env with group_cache := some gs })

/-- Helper for `delete_product`: `delete_rows(i)` for the first Mahsulotlar
row matching the product and group name exactly; `none` when no row matches. -/
def delete_product_rows : List Product → String → String → Option (List Product)
  | [], _, _ => none
  | p :: ps, pname, gname =>
    if p.name = pname && p.group_name = gname then some ps
    else
      match delete_product_rows ps pname gname with
      | none => none
      | some ps' => some (p :: ps')

/-- The function `delete_product(product_name, group_name)`: delete the first
matching sheet row and pop `PRODUCT_CACHE[group_name]` (only that key);
`False` and no change when the product is not found. -/
def delete_product (env : Env) (pname gname : String) : Bool × Env :=
  match delete_product_rows env.mahsulotlar pname gname with
  | none => (false, env)
  | some ms =>
    (true, { env with mahsulotlar := ms, product_cache := delKey env.product_cache gname })

/-- The expression `total_sum = sum(item["price"] * item["quantity"] for item
in cart)` of `save_order` and `handle_location`. -/
def cart_total_sum (cart : List CartItem) : ℚ :=
  (cart.map (fun item => item.price * (item.quantity : ℚ))).sum

/-- The expression `total_bonus = sum(item["price"] * item["quantity"] *
(item["bonus_percent"] / 100) for item in cart) if user_data["role"] ==
"Usta" else 0` of `save_order` and `handle_location`. -/
def cart_total_bonus (role : String) (cart : List CartItem) : ℚ :=
  if role = "Usta" then
    (cart.map (fun item => item.price * (item.quantity : ℚ) * (item.bonus_percent / 100))).sum
  else 0

/-- The `cart_text` line-item summary built in `save_order` and
`handle_location`. -/
def cart_text (cart : List CartItem) : String :=
  String.intercalate "\n" (cart.map (fun item =>
    item.name ++ " - " ++ toString item.quantity ++ " dona, narxi: " ++
    format_currency item.price ++ ", jami: " ++
    format_currency (item.price * (item.quantity : ℚ))))

/-- The function `save_order(user_id, cart, address, group_name)`: look the
customer up, compute the totals, append a Buyurtmalar row with Confirmed
column `"No"`, and, when `total_bonus > 0`, call `update_bonus` with its
return value discarded.  Returns the sheet row count after the append
(header row included) as the order id, or `none` when the customer is not
found (`datetime.now()` is passed in as `date`). -/
def save_order (env : Env) (uid : String) (cart : List CartItem)
    (address group_name date : String) : Option Nat × Env :=
  match get_user_data env uid with
  | (none, env1) => (none, env1)
  | (some ud, env1) =>
    let total_sum := cart_total_sum cart
    let total_bonus := cart_total_bonus ud.role cart
    let row : OrderRow :=
      { user_id := uid, user_name := ud.name, phone := ud.phone, address := address,
        date := date, group_name := group_name, cart_text := cart_text cart,
        total_sum := total_sum, bonus_sum := total_bonus, confirmed := "No" }
    let env2 := { env1 with buyurtmalar := env1.buyurtmalar ++ [row] }
    let order_id := env2.buyurtmalar.length + 1
    let env3 := if total_bonus > 0 then (update_bonus env2 uid total_bonus).2 else env2
    (some order_id, env3)

/-- The filter of `get_orders_by_user(user_id)` over the Buyurtmalar sheet. -/
def get_orders_by_user (env : Env) (uid : String) : List OrderRow :=
  env.buyurtmalar.filter (fun o => o.user_id == uid)

/-- The status rendering `'Tasdiqlangan' if confirmed == 'Yes' else
'Rad etildi' if confirmed == 'Rejected' else 'Tasdiqlanmagan'`. -/
def order_status_text (c : String) : String :=
  if c = "Yes" then "Tasdiqlangan"
  else if c = "Rejected" then "Rad etildi"
  else "Tasdiqlanmagan"

/-- The reply body assembled for "Mening buyurtmalarim". -/
def orders_reply (orders : List OrderRow) : String :=
  String.intercalate "\n\n" (orders.map (fun o =>
    "Sana: " ++ o.date ++ "\nGuruh: " ++ o.group_name ++ "\nMahsulotlar:\n" ++
    o.cart_text ++ "\nUmumiy summa: " ++ format_currency o.total_sum ++ "\n" ++
    (if o.bonus_sum > 0 then "Bonus summasi: " ++ format_currency o.bonus_sum else "") ++
    "\nHolat: " ++ order_status_text o.confirmed))

/-- The re-prompt sent for an invalid phone number (registration and edit). -/
def phone_reprompt : String :=
  "Iltimos, to\x27g\x27ri telefon raqamini kiriting (+998XXXXXXXXX):"

/-- The re-prompt sent for an invalid role (registration and edit). -/
def role_reprompt : String :=
  "Iltimos, quyidagi variantlardan birini tanlang: Do\x27kon egasi, Qurilish kompaniyasi, Uy egasi, Usta"

/-- The `elif user_id in USER_STATE:` dispatch of `handle_message`
(`telegram_bot.py` lines 531-648): one registration / edit / quantity step
for the user's current session.  `ud` is the `user_data` variable in scope
(necessarily present when this branch is reached) and `text` is the already
stripped message text; the `text.strip()` calls inside the name steps are
kept even though they are no-ops on stripped input. -/
def handle_customer_state (env : Env) (uid : String) (ud : Customer)
    (text : String) : Env × String :=
  match lookupKey env.user_state uid with
  | none => (env, "")
  | some st =>
    if st.step = "name" then
      if strip text = "" then
        (env, "Iltimos, ismingizni kiriting (bo\x27sh bo\x27lmasligi kerak).")
      else
        ({ env with user_state := (setKey env.user_state uid
            { st with name := strip text, step := "phone" }) },
         "Telefon raqamingizni kiriting (+998XXXXXXXXX):")
    else if st.step = "phone" then
      if phone_matches text then
        ({ env with user_state := (setKey env.user_state uid
            { st with phone := text, step := "location" }) },
         "Lokatsiyangizni yuboring:")
      else (env, phone_reprompt)
    else if st.step = "role" then
      if text = "Do\x27kon egasi" ∨ text = "Qurilish kompaniyasi" ∨
          text = "Uy egasi" ∨ text = "Usta" then
        let st1 := { st with role := text }
        let env1 := { env with user_state := setKey env.user_state uid st1 }
        let d : Customer :=
          { id := uid, name := st.name, phone := st.phone, address := st.address,
            role := text, bonus := 0, edit_request := "", edit_confirmed := "" }
        let r := save_user_data env1 uid d
        if r.1 then
          ({ r.2 with user_state := delKey r.2.user_state uid },
           "Ma\x27lumotlaringiz saqlandi!")
        else (r.2, "Ma\x27lumotlarni saqlashda xato yuz berdi.")
      else (env, role_reprompt)
    else if st.step = "quantity" then
      match pythonInt text with
      | none => (env, "Iltimos, to\x27g\x27ri miqdor kiriting (butun son).")
      | some q =>
        if q ≤ 0 then (env, "Iltimos, 0 dan katta miqdor kiriting.")
        else
          let pname := st.product_name
          let g := (lookupKey env.user_selected_group uid).getD ""
          let r := get_products env (some g)
          let env1 := r.2
          match r.1.find? (fun p => p.name == pname) with
          | some p =>
            let newCart := (lookupKey env1.cart uid).getD [] ++
              [{ name := pname, quantity := q, price := p.price,
                 bonus_percent := p.bonus_percent }]
            let env2 := { env1 with cart := setKey env1.cart uid newCart }
            ({ env2 with user_state := delKey env2.user_state uid },
             pname ++ " (" ++ toString q ++ " dona) savatga qo\x27shildi. Yana mahsulot qo\x27shasizmi yoki savatni tasdiqlaysizmi?")
          | none =>
            ({ env1 with user_state := delKey env1.user_state uid },
             "Mahsulot topilmadi. Iltimos, qaytadan urinib ko\x27ring.")
    else if st.step = "edit_name" then
      if strip text = "" then
        (env, "Iltimos, ismingizni kiriting (bo\x27sh bo\x27lmasligi kerak).")
      else
        ({ env with user_state := (setKey env.user_state uid
            { st with name := strip text, step := "edit_phone" }) },
         "Joriy telefon: " ++ st.current_phone ++ "\nYangi telefon raqamingizni kiriting (yoki o\x27zgartirmaslik uchun joriy telefonni qaytaring):")
    else if st.step = "edit_phone" then
      if phone_matches text ∨ text = st.current_phone then
        ({ env with user_state := (setKey env.user_state uid
            { st with phone := text, step := "edit_location" }) },
         "Joriy manzil: " ++ st.current_address ++ "\nYangi lokatsiyangizni yuboring (yoki o\x27zgartirmaslik uchun /skip buyrug\x27ini yuboring):")
      else (env, phone_reprompt)
    else if st.step = "edit_role" then
      if (text = "Do\x27kon egasi" ∨ text = "Qurilish kompaniyasi" ∨
          text = "Uy egasi" ∨ text = "Usta") ∨ text = st.current_role then
        let st1 := { st with role := text }
        let env1 := { env with user_state := setKey env.user_state uid st1 }
        let ers := st.name ++ "|" ++ st.phone ++ "|" ++ st.address ++ "|" ++ text
        let d : Customer :=
          { id := uid, name := st.name, phone := st.phone, address := st.address,
            role := text, bonus := st.bonus, edit_request := ers,
            edit_confirmed := "No" }
        let r := update_user_data env1 uid d true
        if r.1 then
          ({ r.2 with user_state := delKey r.2.user_state uid },
           "Ma\x27lumotlarni o\x27zgartirish so\x27rovi adminga yuborildi. Tasdiqlanishini kuting.")
        else (r.2, "Ma\x27lumotlarni o\x27zgartirish so\x27rovini yuborishda xato yuz berdi.")
      else (env, role_reprompt)
    else if text = "/skip" ∧ st.step = "edit_location" then
      ({ env with user_state := (setKey env.user_state uid
          { st with address := st.current_address, step := "edit_role" }) },
       "Joriy faoliyat turi: " ++ st.current_role ++ "\nYangi faoliyat turini tanlang (yoki o\x27zgartirmaslik uchun joriy turni qaytaring):")
    else (env, "")

/-- The non-administrator path of `handle_message` (`telegram_bot.py` lines
457-648): `text0` is the raw message text, stripped on entry; when `user_id`
is in `ADMIN_IDS` the real handler delegates to `handle_admin` instead and
this function does not apply.  Replies consisting of dynamic listings keep
the source structure; messages sent to the administrator chat (bonus
withdrawal, edit request) are side effects outside the returned reply. -/
def handle_message_customer (env0 : Env) (uid text0 : String) : Env × String :=
  let text := strip text0
  let p := get_user_data env0 uid
  let ud? := p.1
  let env := p.2
  if ud?.isNone = true ∧ text ≠ "Ma\x27lumotlaringizni saqlang" then
    (env, "Iltimos, avval ma\x27lumotlaringizni saqlang.")
  else if text = "Ma\x27lumotlaringizni saqlang" then
    ({ env with user_state := setKey env.user_state uid { step := "name" } },
     "Ismingizni kiriting:")
  else
    match ud? with
    | none => (env, "")
    | some ud =>
      if text = "Shaxsiy ma\x27lumotlarni o\x27zgartirish" then
        ({ env with user_state := (setKey env.user_state uid
            { step := "edit_name", bonus := ud.bonus, current_name := ud.name,
              current_phone := ud.phone, current_address := ud.address,
              current_role := ud.role }) },
         "Joriy ism: " ++ ud.name ++ "\nYangi ismingizni kiriting (yoki o\x27zgartirmaslik uchun joriy ismni qaytaring):")
      else if text = "Mahsulot buyurtma qilish" then
        let env1 := { env with cart := setKey env.cart uid [] }
        let r := get_groups env1
        if r.1.isEmpty then (r.2, "Hozirda guruhlar mavjud emas.")
        else (r.2, "Mahsulot buyurtma qilish uchun guruhni tanlang:")
      else if text = "Mening buyurtmalarim" then
        let orders := get_orders_by_user env uid
        if orders.isEmpty then (env, "Sizda buyurtmalar yo\x27q.")
        else (env, orders_reply orders)
      else if text = "Umumiy Bonus" ∧ ud.role = "Usta" then
        (env, "Sizning umumiy bonusingiz: " ++ format_currency ud.bonus)
      else if text = "Bonusni yechish" ∧ ud.role = "Usta" then
        if ud.bonus ≤ 0 then (env, "Sizda yechish uchun bonus mavjud emas.")
        else
          ({ env with bonus_requests := setKey env.bonus_requests uid ud.bonus },
           "Bonusni yechish so\x27rovi adminga yuborildi.")
      else if text = "Admin bilan bog\x27lanish" then
        (env, "Admin bilan bog\x27lanish uchun: " ++ env.admins.headD "")
      else if (lookupKey env.user_state uid).isSome then
        handle_customer_state env uid ud text
      else (env, "")

/-- The `order_location` branch of `handle_location` (`telegram_bot.py`
lines 672-713), reached when `USER_STATE[user_id]["step"] ==
"order_location"` and a location message arrives: build the address string,
stage `temp_order` into `ORDER_CACHE[user_id]` (nothing is written to the
record store), notify the administrator (side effect), and clear the
session entry.  The cart read `CART[user_id]` is modeled with default `[]`
(the staged flows guarantee the key is present). -/
def order_location_step (env : Env) (uid : String) (lat lon : ℚ) : Env × String :=
  let address := "Lat:" ++ toString lat ++ " Lon:" ++ toString lon
  let maps_link := "https://maps.google.com/?q=" ++ toString lat ++ "," ++ toString lon
  match get_user_data env uid with
  | (none, env1) => (env1, "Xato: Haridor ma\x27lumotlari topilmadi.")
  | (some ud, env1) =>
    let g := (lookupKey env1.user_selected_group uid).getD ""
    let cart := (lookupKey env1.cart uid).getD []
    let tord : TempOrder :=
      { user_id := uid, user_name := ud.name, phone := ud.phone, address := address,
        group_name := g, cart_text := cart_text cart,
        total_sum := cart_total_sum cart, bonus_sum := cart_total_bonus ud.role cart,
        maps_link := maps_link, cart := cart }
    let env2 := { env1 with order_cache := setKey env1.order_cache uid tord,
                            user_state := delKey env1.user_state uid }
    (env2, "Buyurtmangiz adminga yuborildi. Tasdiqlanishini kuting.")

/-- The `confirm_order_` branch of `handle_admin_callback` (`telegram_bot.py`
lines 773-805): look the staged order up in `ORDER_CACHE` (replying
"Buyurtma topilmadi" when absent), persist it via `save_order`, re-read the
customer, and on success notify the customer (side effect) and delete the
`ORDER_CACHE`, `CART` and `USER_SELECTED_GROUP` entries.  `date` stands for
`datetime.now()` inside `save_order`. -/
def confirm_order_step (env : Env) (order_uid date : String) : Env × String :=
  match lookupKey env.order_cache order_uid with
  | none => (env, "Xato: Buyurtma topilmadi!")
  | some od =>
    match save_order env od.user_id od.cart od.address od.group_name date with
    | (none, env1) => (env1, "Xato: Buyurtma saqlanmadi!")
    | (some _, env1) =>
      match get_user_data env1 order_uid with
      | (none, env2) => (env2, "Xato: Foydalanuvchi topilmadi!")
      | (some _, env2) =>
        let env3 := { env2 with
          order_cache := delKey env2.order_cache order_uid,
          cart := delKey env2.cart order_uid,
          user_selected_group := delKey env2.user_selected_group order_uid }
        (env3, "Buyurtma tasdiqlandi.")

/-- The `reject_edit_` branch of `handle_admin_callback` (`telegram_bot.py`
lines 910-933): fetch the customer, blank the `edit_request` field, set
`edit_confirmed` to "Rejected", and write the record back with
`update_user_data` — the name/phone/address/role columns are rewritten from
the fetched record as they currently stand. -/
def reject_edit_step (env : Env) (target_uid : String) : Env × String :=
  match get_user_data env target_uid with
  | (none, env1) => (env1, "Xato: Foydalanuvchi topilmadi!")
  | (some ud, env1) =>
    let ud' := { ud with edit_request := "", edit_confirmed := "Rejected" }
    let r := update_user_data env1 target_uid ud' false
    if r.1 then (r.2, "Ma\x27lumotlarni o\x27zgartirish rad etildi.")
    else (r.2, "Xato: Ma\x27lumotlar yangilanmadi!")

/-! Concrete data used by the closed runs in the theorems below. -/

/-- A registered contractor ("Usta") with balance 5, used for the edit-chain run. -/
def c1_customer : Customer :=
  { id := "1", name := "Aziz", phone := "+998901234567", address := "Addr",
    role := "Usta", bonus := 5, edit_request := "", edit_confirmed := "" }

/-- Initial state for the edit-chain run: one stored customer, nothing else. -/
def c1_env0 : Env := { haridorlar := [c1_customer] }

/-- After the customer opens the profile-edit chain. -/
def c1_env1 : Env :=
  (handle_message_customer c1_env0 "1" "Shaxsiy ma\x27lumotlarni o\x27zgartirish").1

/-- After entering the new name "Bekzod". -/
def c1_env2 : Env := (handle_message_customer c1_env1 "1" "Bekzod").1

/-- After entering the new phone. -/
def c1_env3 : Env := (handle_message_customer c1_env2 "1" "+998911111111").1

/-- After skipping the location step. -/
def c1_env4 : Env := (handle_message_customer c1_env3 "1" "/skip").1

/-- After choosing the role, which completes the chain (no admin decision yet). -/
def c1_env5 : Env := (handle_message_customer c1_env4 "1" "Usta").1

/-- After the administrator rejects the pending edit request. -/
def c1_env6 : Env := (reject_edit_step c1_env5 "1").1

/-- A registered non-contractor, used for the duplicate-confirm run. -/
def c2_customer : Customer :=
  { id := "1", name := "Aziz", phone := "+998901234567", address := "Addr",
    role := "Uy egasi", bonus := 0, edit_request := "", edit_confirmed := "" }

/-- An example cart: 2 × Cement at 50 000 with 10% bonus. -/
def cement_cart : List CartItem :=
  [{ name := "Cement", quantity := 2, price := 50000, bonus_percent := 10 }]

/-- Staged order for user "1" used by the duplicate-confirm run. -/
def c2_tord : TempOrder :=
  { user_id := "1", user_name := "Aziz", phone := "+998901234567",
    address := "Lat:41 Lon:69", group_name := "G", cart_text := "txt",
    total_sum := 100000, bonus_sum := 0, maps_link := "L", cart := cement_cart }

/-- State with one staged order awaiting the admin decision. -/
def c2_env : Env :=
  { haridorlar := [c2_customer], order_cache := [("1", c2_tord)],
    cart := [("1", cement_cart)], user_selected_group := [("1", "G")] }

/-- A registered contractor with balance 0, used for the staging/confirm runs. -/
def usta_customer : Customer :=
  { id := "1", name := "Aziz", phone := "+998901234567", address := "Addr",
    role := "Usta", bonus := 0, edit_request := "", edit_confirmed := "" }

/-- State for the staging run: contractor with the cement cart and group "G". -/
def c3_env : Env :=
  { haridorlar := [usta_customer], cart := [("1", cement_cart)],
    user_selected_group := [("1", "G")],
    user_state := [("1", { step := "order_location" })] }

/-- Staged contractor order used by the confirm run. -/
def c4_tord : TempOrder :=
  { user_id := "1", user_name := "Aziz", phone := "+998901234567",
    address := "Lat:41 Lon:69", group_name := "G", cart_text := "txt",
    total_sum := 100000, bonus_sum := 10000, maps_link := "L", cart := cement_cart }

/-- State with a staged contractor order awaiting the admin decision. -/
def c4_env : Env :=
  { haridorlar := [usta_customer], order_cache := [("1", c4_tord)],
    cart := [("1", cement_cart)], user_selected_group := [("1", "G")] }

/-- State where user "1" is cached but the sheet row has been removed. -/
def c5_env : Env := { user_cache := [("1", usta_customer)] }

/-- State for the additivity witness: one customer with balance 5. -/
def c6_env : Env := { haridorlar := [c1_customer] }

/-- Session sitting on the edit-chain phone step with stored phone "abc". -/
def c7_session_x : Session := { step := "edit_phone", current_phone := "abc" }

/-- State for the phone-validation counterexample. -/
def c7_envx : Env := { user_state := [("1", c7_session_x)] }

/-- State for the phone-validation witness: registration phone step. -/
def c7_envw : Env := { user_state := [("1", { step := "phone" })] }

/-- State for the quantity-validation witness. -/
def c8_env : Env :=
  { user_state := [("1", { step := "quantity", product_name := "Cement" })] }

/-- A product in group "G", used for the cache-invalidation runs. -/
def c9_product : Product :=
  { group_name := "G", name := "Pr", price := 100, bonus_percent := 0, quantity := 5 }

/-- Initial product state: one product, no cache. -/
def c9_env0 : Env := { mahsulotlar := [c9_product] }

/-- After an unfiltered `get_products(None)` read populated the "all" cache key. -/
def c9_env1 : Env := (get_products c9_env0 none).2

/-- After `delete_product("Pr", "G")` succeeded. -/
def c9_env2 : Env := (delete_product c9_env1 "Pr" "G").2

/-- Product state without a cache, for the per-group invalidation witness. -/
def c9_envw : Env := { mahsulotlar := [c9_product] }

/-- Empty state (no customers at all), for the unregistered-guard witness. -/
def c10_env : Env := {}

/-! Helper lemmas about the association-list dictionary operations and about
which parts of the global state each datastore function can touch. -/

/-- Reading back the key just written. -/
theorem lookupKey_setKey_self {α : Type} (l : List (String × α)) (k : String) (v : α) :
    lookupKey (setKey l k v) k = some v := by
  induction l with
  | nil => simp [setKey, lookupKey]
  | cons kv rest ih =>
    obtain ⟨k', v'⟩ := kv
    by_cases h : k' = k
    · simp [setKey, lookupKey, h]
    · simp [setKey, lookupKey, h, ih]

/-- A key that occurs nowhere reads as `none`. -/
theorem lookupKey_eq_none {α : Type} (l : List (String × α)) (k : String)
    (h : k ∉ l.map Prod.fst) : lookupKey l k = none := by
  induction l with
  | nil => simp [lookupKey]
  | cons kv rest ih =>
    obtain ⟨k', v'⟩ := kv
    simp only [List.map_cons, List.mem_cons] at h
    push_neg at h
    have hne : ¬ k' = k := fun hh => h.1 hh.symm
    simp [lookupKey, hne, ih h.2]

/-- After deleting a key from a duplicate-free dictionary it reads as `none`. -/
theorem lookupKey_delKey_self {α : Type} (l : List (String × α)) (k : String)
    (h : (l.map Prod.fst).Nodup) : lookupKey (delKey l k) k = none := by
  induction l with
  | nil => simp [delKey, lookupKey]
  | cons kv rest ih =>
    obtain ⟨k', v'⟩ := kv
    simp only [List.map_cons, List.nodup_cons] at h
    by_cases hk : k' = k
    · subst hk
      simp only [delKey, if_pos rfl]
      exact lookupKey_eq_none rest k' h.1
    · simp [delKey, lookupKey, hk, ih h.2]

/-- `get_user_data` touches only `USER_CACHE`. -/
theorem get_user_data_order_cache (env : Env) (uid : String) :
    ((get_user_data env uid).2).order_cache = env.order_cache := by
  unfold get_user_data
  rcases hc : lookupKey env.user_cache uid with _ | c
  · rcases hf : findCustomer env.haridorlar uid with _ | r <;> simp [hc, hf]
  · simp [hc]

/-- `update_bonus` touches only the customer sheet and `USER_CACHE`. -/
theorem update_bonus_order_cache (env : Env) (uid : String) (amt : ℚ) :
    ((update_bonus env uid amt).2).order_cache = env.order_cache := by
  unfold update_bonus
  rcases hc : creditFirst env.haridorlar uid amt with _ | p
  · simp [hc]
  · obtain ⟨rows', nb⟩ := p
    simp [hc]

/-- `save_order` touches only the customer sheet, the orders sheet and
`USER_CACHE`; in particular it leaves `ORDER_CACHE` alone. -/
theorem save_order_order_cache (env : Env) (uid : String) (cart : List CartItem)
    (address group_name date : String) :
    ((save_order env uid cart address group_name date).2).order_cache = env.order_cache := by
  have h0 := get_user_data_order_cache env uid
  unfold save_order
  rcases h : get_user_data env uid with ⟨ud?, env1⟩
  rw [h] at h0
  cases ud? with
  | none => simpa using h0
  | some ud =>
    simp only []
    split
    · rw [update_bonus_order_cache]
      simpa using h0
    · simpa using h0

/-- When `get_user_data` finds nobody, the state is untouched. -/
theorem get_user_data_none_env (env : Env) (uid : String)
    (h : (get_user_data env uid).1 = none) : (get_user_data env uid).2 = env := by
  unfold get_user_data at h ⊢
  rcases hc : lookupKey env.user_cache uid with _ | c
  · rcases hf : findCustomer env.haridorlar uid with _ | r
    · simp [hc, hf]
    · simp [hc, hf] at h
  · simp [hc] at h

/-- `creditFirst` on a list containing the looked-up customer: the first
matching row gets the delta added and is found back with the new balance. -/
theorem creditFirst_found (rows : List Customer) (uid : String) (amt : ℚ)
    (r : Customer) (h : findCustomer rows uid = some r) :
    ∃ rows', creditFirst rows uid amt = some (rows', r.bonus + amt) ∧
      findCustomer rows' uid = some { r with bonus := r.bonus + amt } := by
  induction rows with
  | nil => simp [findCustomer] at h
  | cons r0 rs ih =>
    by_cases h0 : r0.id = uid
    · simp only [findCustomer, if_pos h0, Option.some.injEq] at h
      subst h
      refine ⟨{ r0 with bonus := r0.bonus + amt } :: rs, ?_, ?_⟩
      · simp [creditFirst, h0]
      · simp [findCustomer, h0]
    · simp only [findCustomer, if_neg h0] at h
      obtain ⟨rows', hc, hf⟩ := ih h
      refine ⟨r0 :: rows', ?_, ?_⟩
      · simp [creditFirst, h0, hc]
      · simp [findCustomer, h0, hf]

/-- `update_bonus` on an existing customer reports success and stores the
old balance plus the delta. -/
theorem update_bonus_found (env : Env) (uid : String) (amt : ℚ) (r : Customer)
    (h : findCustomer env.haridorlar uid = some r) :
    (update_bonus env uid amt).1 = true ∧
      findCustomer ((update_bonus env uid amt).2).haridorlar uid =
        some { r with bonus := r.bonus + amt } := by
  obtain ⟨rows', hc, hf⟩ := creditFirst_found env.haridorlar uid amt r h
  unfold update_bonus
  simp only [hc]
  exact ⟨trivial, hf⟩

/-- A successful `delete_product_rows` really had a row with that product and
group name in its input. -/
theorem delete_rows_mem (l : List Product) (pname gname : String)
    (ms : List Product) (h : delete_product_rows l pname gname = some ms) :
    ∃ r ∈ l, r.name = pname ∧ r.group_name = gname := by
  induction l generalizing ms with
  | nil => simp [delete_product_rows] at h
  | cons p ps ih =>
    by_cases h1 : p.name = pname
    · by_cases h2 : p.group_name = gname
      · exact ⟨p, List.mem_cons_self p ps, h1, h2⟩
      · simp only [delete_product_rows, h1, h2] at h
        rcases hr : delete_product_rows ps pname gname with _ | ps'
        · rw [hr] at h; simp at h
        · obtain ⟨r, hmem, hrp⟩ := ih ps' hr
          exact ⟨r, List.mem_cons_of_mem p hmem, hrp⟩
    · simp only [delete_product_rows, h1] at h
      rcases hr : delete_product_rows ps pname gname with _ | ps'
      · rw [hr] at h; simp at h
      · obtain ⟨r, hmem, hrp⟩ := ih ps' hr
        exact ⟨r, List.mem_cons_of_mem p hmem, hrp⟩

/-- When the (group, name) pair occurs at most once, deleting the product
leaves no row matching the name within the (stripped) group. -/
theorem delete_rows_clears (l : List Product) (pname gname : String)
    (ms : List Product) (h : delete_product_rows l pname gname = some ms)
    (hu : (l.filter (fun p => p.name == pname && strip p.group_name == strip gname)).length ≤ 1) :
    ms.filter (fun p => p.name == pname && strip p.group_name == strip gname) = [] := by
  induction l generalizing ms with
  | nil => simp [delete_product_rows] at h
  | cons p ps ih =>
    by_cases hd : p.name = pname ∧ p.group_name = gname
    · have hdel : delete_product_rows (p :: ps) pname gname = some ps := by
        simp [delete_product_rows, hd.1, hd.2]
      rw [hdel, Option.some.injEq] at h
      subst h
      have hP : (p.name == pname && strip p.group_name == strip gname) = true := by
        simp [hd.1, hd.2]
      rw [List.filter_cons, if_pos hP, List.length_cons] at hu
      have hzero : (ps.filter
          (fun p => p.name == pname && strip p.group_name == strip gname)).length = 0 := by
        omega
      exact List.length_eq_zero.mp hzero
    · have hcond : (decide (p.name = pname) && decide (p.group_name = gname)) = false := by
        rcases not_and_or.mp hd with h1 | h2
        · simp [h1]
        · simp [h2]
      rw [delete_product_rows] at h
      rw [hcond] at h
      simp only [Bool.false_eq_true, if_false] at h
      rcases hr : delete_product_rows ps pname gname with _ | ps'
      · rw [hr] at h; simp at h
      · rw [hr] at h
        simp only [Option.some.injEq] at h
        subst h
        by_cases hP : (p.name == pname && strip p.group_name == strip gname) = true
        · rw [List.filter_cons, if_pos hP, List.length_cons] at hu
          have hzero : (ps.filter
              (fun p => p.name == pname && strip p.group_name == strip gname)).length = 0 := by
            omega
          obtain ⟨r, hmem, hr1, hr2⟩ := delete_rows_mem ps pname gname ps' hr
          have hrP : (r.name == pname && strip r.group_name == strip gname) = true := by
            simp [hr1, hr2]
          have hrmem : r ∈ ps.filter
              (fun p => p.name == pname && strip p.group_name == strip gname) :=
            List.mem_filter.mpr ⟨hmem, hrP⟩
          rw [List.length_eq_zero] at hzero
          rw [hzero] at hrmem
          simp at hrmem
        · have hPf : (p.name == pname && strip p.group_name == strip gname) = false :=
            Bool.eq_false_iff.mpr hP
          rw [List.filter_cons, if_neg (by simp [hPf])] at hu
          rw [List.filter_cons, if_neg (by simp [hPf])]
          exact ih ps' hr hu

/-! Claim theorems. -/

/-- C10: for every non-admin user with no stored Customer record, any text
message other than the registration trigger "Ma'lumotlaringizni saqlang" is
answered with the prompt to register first, and no session state, cart, or
customer record is created by that message: the whole global state is
returned unchanged. -/
theorem c10_unregistered_guard (env : Env) (uid text0 : String)
    (hud : (get_user_data env uid).1 = none)
    (ht : strip text0 ≠ "Ma\x27lumotlaringizni saqlang") :
    handle_message_customer env uid text0 =
      (env, "Iltimos, avval ma\x27lumotlaringizni saqlang.") := by
  have henv : (get_user_data env uid).2 = env := get_user_data_none_env env uid hud
  unfold handle_message_customer
  simp only [hud, henv, Option.isNone_none]
  rw [if_pos ⟨trivial, ht⟩]

/-- C10 witness: empty state, message "salom". -/
theorem c10_unregistered_guard_w :
    handle_message_customer c10_env "1" "salom" =
      (c10_env, "Iltimos, avval ma\x27lumotlaringizni saqlang.") :=
  c10_unregistered_guard c10_env "1" "salom" (by decide) (by decide)

/-- C7 counterexample: sitting on the edit-chain phone step with stored
current phone "abc", the input "abc" does not match `^\+998\d{9}$`, yet the
session advances to the location step instead of staying on the phone step
— the claim as stated is false for this input. -/
theorem c7_counterexample :
    phone_matches "abc" = false ∧
    (lookupKey ((handle_customer_state c7_envx "1" usta_customer "abc").1.user_state)
        "1").map (fun s => s.step) = some "edit_location" := by
  decide

/-- C7 (amended): every input that does not match `^\+998\d{9}$` keeps the
registration phone step unchanged with the phone re-prompt; on the edit
chain the same holds provided the input also differs from the session's
stored current phone (re-entering the current phone is accepted as a
keep-unchanged confirmation and advances). -/
theorem c7_phone_validation (env : Env) (uid : String) (ud : Customer)
    (st : Session) (text : String)
    (hst : lookupKey env.user_state uid = some st)
    (hm : phone_matches text = false) :
    (st.step = "phone" →
      handle_customer_state env uid ud text = (env, phone_reprompt)) ∧
    (st.step = "edit_phone" → text ≠ st.current_phone →
      handle_customer_state env uid ud text = (env, phone_reprompt)) := by
  constructor
  · intro hstep
    unfold handle_customer_state
    rw [hst]
    simp [hstep, hm]
  · intro hstep hne
    unfold handle_customer_state
    rw [hst]
    simp [hstep, hm, hne]

/-- C7 witness: registration phone step, input "abc". -/
theorem c7_phone_validation_w :
    handle_customer_state c7_envw "1" usta_customer "abc" = (c7_envw, phone_reprompt) :=
  (c7_phone_validation c7_envw "1" usta_customer { step := "phone" } "abc"
    (by decide) (by decide)).1 rfl

/-- C8: every text input during the quantity step that does not parse as a
positive integer (a non-integer, zero, or a negative) re-prompts and leaves
the whole state unchanged: the cart is untouched and the session remains on
the quantity step. -/
theorem c8_quantity_validation (env : Env) (uid : String) (ud : Customer)
    (st : Session) (text : String)
    (hst : lookupKey env.user_state uid = some st)
    (hstep : st.step = "quantity")
    (hbad : pythonInt text = none ∨ ∃ q, pythonInt text = some q ∧ q ≤ 0) :
    (handle_customer_state env uid ud text).1 = env ∧
      ((handle_customer_state env uid ud text).2 =
          "Iltimos, to\x27g\x27ri miqdor kiriting (butun son)." ∨
        (handle_customer_state env uid ud text).2 =
          "Iltimos, 0 dan katta miqdor kiriting.") := by
  rcases hbad with hp | ⟨q, hp, hq⟩
  · unfold handle_customer_state
    rw [hst]
    simp [hstep, hp]
  · unfold handle_customer_state
    rw [hst]
    simp [hstep, hp, hq]

/-- C8 witness: quantity step, input "-3". -/
theorem c8_quantity_validation_w :
    (handle_customer_state c8_env "1" usta_customer "-3").1 = c8_env ∧
      ((handle_customer_state c8_env "1" usta_customer "-3").2 =
          "Iltimos, to\x27g\x27ri miqdor kiriting (butun son)." ∨
        (handle_customer_state c8_env "1" usta_customer "-3").2 =
          "Iltimos, 0 dan katta miqdor kiriting.") :=
  c8_quantity_validation c8_env "1" usta_customer
    { step := "quantity", product_name := "Cement" } "-3" (by decide) rfl
    (Or.inr ⟨-3, by decide, by decide⟩)

/-- C6: `update_bonus` is additive: for an existing customer with balance
`r.bonus`, crediting `b1` and then `b2` succeeds both times and leaves the
stored balance at `r.bonus + b1 + b2` (the balance is read, the delta added
and the sum written back — never overwritten with the delta). -/
theorem c6_update_bonus_additive (env : Env) (uid : String) (r : Customer)
    (b1 b2 : ℚ) (h : findCustomer env.haridorlar uid = some r) :
    (update_bonus env uid b1).1 = true ∧
      (update_bonus (update_bonus env uid b1).2 uid b2).1 = true ∧
      findCustomer ((update_bonus (update_bonus env uid b1).2 uid b2).2).haridorlar uid =
        some { r with bonus := r.bonus + b1 + b2 } := by
  obtain ⟨h1, hf1⟩ := update_bonus_found env uid b1 r h
  obtain ⟨h2, hf2⟩ := update_bonus_found _ uid b2 _ hf1
  exact ⟨h1, h2, hf2⟩

/-- C6 witness: customer with balance 5, credits 3 then 4. -/
theorem c6_update_bonus_additive_w :
    (update_bonus c6_env "1" 3).1 = true ∧
      (update_bonus (update_bonus c6_env "1" 3).2 "1" 4).1 = true ∧
      findCustomer ((update_bonus (update_bonus c6_env "1" 3).2 "1" 4).2).haridorlar "1" =
        some { c1_customer with bonus := c1_customer.bonus + 3 + 4 } :=
  c6_update_bonus_additive c6_env "1" c1_customer 3 4 (by decide)

/-- C3: staging an order (the `order_location` branch of `handle_location`)
stores a temp order whose `total_sum` is `Σ price·qty` over the cart and
whose `bonus_sum` is `Σ price·qty·(bonus_percent/100)` when the customer's
role is the contractor role "Usta" and `0` for every other role. -/
theorem c3_stage_totals (env : Env) (uid : String) (ud : Customer)
    (cart : List CartItem) (lat lon : ℚ)
    (hud : (get_user_data env uid).1 = some ud)
    (hcart : lookupKey ((get_user_data env uid).2).cart uid = some cart) :
    (lookupKey ((order_location_step env uid lat lon).1.order_cache) uid).map
        (fun t => (t.total_sum, t.bonus_sum)) =
      some ((cart.map (fun it => it.price * (it.quantity : ℚ))).sum,
        if ud.role = "Usta" then
          (cart.map (fun it =>
            it.price * (it.quantity : ℚ) * (it.bonus_percent / 100))).sum
        else 0) := by
  rcases hg : get_user_data env uid with ⟨ud?, env1⟩
  rw [hg] at hud hcart
  dsimp only at hud hcart
  subst hud
  unfold order_location_step
  simp only [hg]
  simp [lookupKey_setKey_self, hcart, cart_total_sum, cart_total_bonus]

/-- C3 witness: contractor with 2 × Cement at 50 000 and 10% bonus. -/
theorem c3_stage_totals_w :
    (lookupKey ((order_location_step c3_env "1" 41 69).1.order_cache) "1").map
        (fun t => (t.total_sum, t.bonus_sum)) =
      some ((cement_cart.map (fun it => it.price * (it.quantity : ℚ))).sum,
        if usta_customer.role = "Usta" then
          (cement_cart.map (fun it =>
            it.price * (it.quantity : ℚ) * (it.bonus_percent / 100))).sum
        else 0) :=
  c3_stage_totals c3_env "1" usta_customer cement_cart 41 69 (by decide) (by decide)

/-- C1: code-bug exhibit: running the complete profile-edit chain
(edit_name → edit_phone → /skip → edit_role) immediately overwrites the
stored customer row with the proposed tuple — before any administrator
decision — and the administrator's rejection does not restore the original
record: the original name was "Aziz", the stored name is "Bekzod" right
after the chain (with the edit still pending, `edit_confirmed = "No"`), and
it remains "Bekzod" after the rejection. -/
theorem c1_edit_chain_mutates_record :
    c1_customer.name = "Aziz" ∧
    (findCustomer c1_env5.haridorlar "1").map (fun r => r.name) = some "Bekzod" ∧
    (findCustomer c1_env5.haridorlar "1").map (fun r => r.edit_confirmed) = some "No" ∧
    (findCustomer c1_env6.haridorlar "1").map (fun r => r.name) = some "Bekzod" ∧
    (findCustomer c1_env6.haridorlar "1").map (fun r => r.edit_confirmed) =
      some "Rejected" := by
  decide

/-- C9 counterexample: after the unfiltered listing populated the "all"
cache key, a successful `delete_product` (which pops only the group key)
leaves the next unfiltered listing still containing the deleted product,
so the claim as stated is false. -/
theorem c9_counterexample :
    (delete_product c9_env1 "Pr" "G").1 = true ∧
    (get_products c9_env2 none).1 = [c9_product] := by
  decide

/-- C9 (amended): a successful `delete_product` invalidates the cached list
for its group key, so — when the (name, stripped-group) pair was unique and
the group name is nonempty and the cache has duplicate-free keys — the next
listing for that group omits the product; the unfiltered ("all") cache
entry is not invalidated and may still contain it. -/
theorem c9_delete_invalidates_group_listing (env : Env) (pname gname : String)
    (hnd : (env.product_cache.map Prod.fst).Nodup)
    (hg : gname ≠ "")
    (hu : (env.mahsulotlar.filter
        (fun p => p.name == pname && strip p.group_name == strip gname)).length ≤ 1)
    (hdel : (delete_product env pname gname).1 = true) :
    ((get_products ((delete_product env pname gname).2) (some gname)).1.filter
        (fun p => p.name == pname)) = [] := by
  rcases hd : delete_product_rows env.mahsulotlar pname gname with _ | ms
  · exfalso
    unfold delete_product at hdel
    rw [hd] at hdel
    simp at hdel
  · have henv : (delete_product env pname gname).2 =
        { env with mahsulotlar := ms,
                   product_cache := delKey env.product_cache gname } := by
      simp [delete_product, hd]
    have hclear := delete_rows_clears env.mahsulotlar pname gname ms hd hu
    have hnone : lookupKey (delKey env.product_cache gname) gname = none :=
      lookupKey_delKey_self env.product_cache gname hnd
    have hkey : cacheKeyOf (some gname) = gname := by simp [cacheKeyOf, hg]
    rw [henv]
    unfold get_products
    simp only [hkey, hnone]
    rw [List.filter_filter]
    simpa using hclear

/-- C9 witness: one product in group "G", no cache. -/
theorem c9_delete_invalidates_group_listing_w :
    ((get_products ((delete_product c9_envw "Pr" "G").2) (some "G")).1.filter
        (fun p => p.name == "Pr")) = [] :=
  c9_delete_invalidates_group_listing c9_envw "Pr" "G" (by decide) (by decide)
    (by decide) (by decide)

/-- C2: a second admin confirm press for the same customer after a confirm
that succeeded (and therefore cleared the stage) is a no-op reporting
"Buyurtma topilmadi" ("not found"): the whole state — in particular the
orders sheet and every bonus balance — is returned unchanged, so no order
row is appended and nothing is credited twice. -/
theorem c2_confirm_idempotent (env : Env) (uid date1 date2 : String)
    (hnd : (env.order_cache.map Prod.fst).Nodup)
    (h1 : (confirm_order_step env uid date1).2 = "Buyurtma tasdiqlandi.") :
    confirm_order_step ((confirm_order_step env uid date1).1) uid date2 =
      ((confirm_order_step env uid date1).1, "Xato: Buyurtma topilmadi!") := by
  rcases ho : lookupKey env.order_cache uid with _ | od
  · exfalso
    have hx : (confirm_order_step env uid date1).2 = "Xato: Buyurtma topilmadi!" := by
      unfold confirm_order_step
      simp only [ho]
    rw [hx] at h1
    exact absurd h1 (by decide)
  · rcases hs : save_order env od.user_id od.cart od.address od.group_name date1
      with ⟨r?, env1⟩
    cases r? with
    | none =>
      exfalso
      have hx : (confirm_order_step env uid date1).2 = "Xato: Buyurtma saqlanmadi!" := by
        unfold confirm_order_step
        simp only [ho, hs]
      rw [hx] at h1
      exact absurd h1 (by decide)
    | some v =>
      rcases hg2 : get_user_data env1 uid with ⟨ud?, env2⟩
      cases ud? with
      | none =>
        exfalso
        have hx : (confirm_order_step env uid date1).2 =
            "Xato: Foydalanuvchi topilmadi!" := by
          unfold confirm_order_step
          simp only [ho, hs, hg2]
        rw [hx] at h1
        exact absurd h1 (by decide)
      | some ud =>
        have hfirst : confirm_order_step env uid date1 =
            ({ env2 with order_cache := delKey env2.order_cache uid,
                         cart := delKey env2.cart uid,
                         user_selected_group := delKey env2.user_selected_group uid },
             "Buyurtma tasdiqlandi.") := by
          unfold confirm_order_step
          simp only [ho, hs, hg2]
        have hoc1 : env1.order_cache = env.order_cache := by
          have a := save_order_order_cache env od.user_id od.cart od.address
            od.group_name date1
          rw [hs] at a
          exact a
        have hoc2 : env2.order_cache = env1.order_cache := by
          have a := get_user_data_order_cache env1 uid
          rw [hg2] at a
          exact a
        have hnone : lookupKey (delKey env2.order_cache uid) uid = none := by
          rw [hoc2, hoc1]
          exact lookupKey_delKey_self env.order_cache uid hnd
        rw [hfirst]
        unfold confirm_order_step
        simp only [hnone]

/-- C2 witness: one staged order for user "1"; first confirm succeeds, the
second press reports "not found" and changes nothing. -/
theorem c2_confirm_idempotent_w :
    confirm_order_step ((confirm_order_step c2_env "1" "2026-01-01").1) "1" "2026-01-02" =
      ((confirm_order_step c2_env "1" "2026-01-01").1, "Xato: Buyurtma topilmadi!") :=
  c2_confirm_idempotent c2_env "1" "2026-01-01" "2026-01-02" (by decide) (by decide)

/-- C4: code-bug exhibit: confirming the staged contractor order reports
success and credits the bonus (0 + 10 000 = 10 000), but the persisted
order row's Confirmed column is "No" (pending) — and no code path in the
program ever updates an order row's status to "Yes" after `save_order`
wrote it, so the row never becomes Confirmed. -/
theorem c4_confirm_persists_unconfirmed :
    (confirm_order_step c4_env "1" "2026-01-01").2 = "Buyurtma tasdiqlandi." ∧
    ((confirm_order_step c4_env "1" "2026-01-01").1.buyurtmalar.map
        (fun o => o.confirmed)) = ["No"] ∧
    ((findCustomer ((confirm_order_step c4_env "1" "2026-01-01").1.haridorlar) "1").map
        (fun r => r.bonus)) = some 10000 := by
  refine ⟨?_, ?_, ?_⟩ <;>
    norm_num [confirm_order_step, save_order, get_user_data, lookupKey,
      findCustomer, setKey, delKey, update_bonus, creditFirst, cart_total_sum,
      cart_total_bonus, c4_env, c4_tord, usta_customer, cement_cart]

/-- C5: code-bug exhibit: with user "1" still in `USER_CACHE` but its sheet
row gone, `update_bonus` correctly returns `false` and changes nothing, yet
its only caller `save_order` discards that return value: the same call
reports success (order id 2) while no balance was written anywhere — the
failure is silently swallowed instead of surfaced. -/
theorem c5_save_order_swallows_failure :
    update_bonus c5_env "1" 10000 = (false, c5_env) ∧
    (save_order c5_env "1" cement_cart "Addr" "G" "2026-01-01").1 = some 2 ∧
    ((save_order c5_env "1" cement_cart "Addr" "G" "2026-01-01").2).haridorlar = [] := by
  refine ⟨by decide, by decide, ?_⟩
  norm_num [save_order, get_user_data, lookupKey, findCustomer, setKey,
    update_bonus, creditFirst, cart_total_sum, cart_total_bonus, c5_env,
    usta_customer, cement_cart]

end Bot
